import Mathlib

/-!
Shallow embedding of `src/moya/agents/remote_agent.py` (class `RemoteAgent`).

Python values that can appear in a decoded JSON document are modelled by the
inductive type `Json`.  The network transport (`requests`) is abstracted by an
outcome datatype: the embedding of each method is a total Lean function over
the possible transport outcomes, mirroring the Python control flow, with
Python exceptions modelled by `Except String`.
-/

/-- Model of a decoded Python JSON value (output of `json.loads`). -/
inductive Json where
  | null : Json
  | bool (b : Bool) : Json
  | num (n : Int) : Json
  | str (s : String) : Json
  | arr (elems : List Json) : Json
  | obj (fields : List (String × Json)) : Json

/-- Dictionary lookup: for a JSON object, the value at key `k` (first match);
`none` for every other shape.  Models Python `dict` access on decoded JSON,
where keys are unique. -/
def Json.lookup : Json → String → Option Json
  | .obj fields, k => (fields.find? (fun p => p.1 == k)).map (·.2)
  | _, _ => none

/-- Python truthiness of a decoded JSON value (`if x:`). -/
def Json.truthy : Json → Bool
  | .null => false
  | .bool b => b
  | .num n => n != 0
  | .str s => s != ""
  | .arr xs => !xs.isEmpty
  | .obj fs => !fs.isEmpty

/-- Python `x.get(k, d)`: succeeds only when `x` is a dict, else raises
`AttributeError` (the receiver has no attribute `get`). -/
def Json.dictGet : Json → String → Json → Except String Json
  | .obj fields, k, d => .ok ((((Json.obj fields).lookup k)).getD d)
  | _, _, _ => .error "AttributeError: object has no attribute get"

/-- Iterating a decoded JSON value, as Python `list.extend(v)` does: a list
yields its elements, a string its characters, a dict its keys; every other
shape raises `TypeError`. -/
def toExtendList : Json → Except String (List Json)
  | .arr xs => .ok xs
  | .str s => .ok (s.data.map (fun c => Json.str c.toString))
  | .obj fs => .ok (fs.map (fun p => Json.str p.1))
  | _ => .error "TypeError: object is not iterable"

/-- Python `logs.extend(v)` on the tool-call log. -/
def extendVal (logs : List Json) (v : Json) : Except String (List Json) :=
  (toExtendList v).map (fun xs => logs ++ xs)

/-- Python `str(x)` on a decoded JSON value (only the cases that can reach an
f-string in the embedded code matter; all are given faithfully). -/
def pyStr : Json → String
  | .null => "None"
  | .bool true => "True"
  | .bool false => "False"
  | .num n => toString n
  | .str s => s
  | .arr _ => "<list>"
  | .obj _ => "<dict>"

/-- The generic error sentinel `f"[RemoteAgent error: {str(e)}]"` built in
`handle_message` / `handle_message_stream`. -/
def errSentinel (msg : String) : String :=
  "[RemoteAgent error: " ++ msg ++ "]"

/-- The distinct sentinel returned on HTTP 401. -/
def authSentinel : String :=
  "[RemoteAgent error: Authentication failed]"

/-- Python `s.rstrip('/')` (used on `config.base_url`). -/
def pyRstripSlash (s : String) : String :=
  String.mk ((s.data.reverse.dropWhile (fun c => c == '/')).reverse)

/-- Embedding of `RemoteAgent.__init__` restricted to the base-URL logic
(lines 38-41): `base_url` is `None` or a string; a falsy value raises
`ValueError`, otherwise the stored base URL is the input with every trailing
slash stripped. -/
def remoteAgentBaseUrl : Option String → Except String String
  | none => .error "RemoteAgent base URL is required."
  | some s =>
      if s == "" then .error "RemoteAgent base URL is required."
      else .ok (pyRstripSlash s)

/-- The chat endpoint built as the base URL followed by `/chat`. -/
def chatEndpoint (base : String) : String := base ++ "/chat"

/-- Outcome of `self.session.post(endpoint, json=data)` followed by
`raise_for_status()` and `response.json()` in `handle_message`:
either the body decodes to a `Json` value (or body decoding raises, carried
as `Except.error`), or `raise_for_status` raised `HTTPError` with a status
code, or the post itself raised a transport exception. -/
inductive SendOutcome where
  | success (body : Except String Json) : SendOutcome
  | httpError (status : Nat) (msg : String) : SendOutcome
  | transportError (msg : String) : SendOutcome

/-- The body-processing block of `handle_message` (lines 87-94):
`res_text = json_response.get("response", "")`,
`tool_calls = json_response.get("tool_calls", [])`,
`if tool_calls: self.tool_call_logs.extend(tool_calls)`, `return res_text`.
Any Python exception raised inside it is an `Except.error`. -/
def procBody (logs : List Json) (body : Json) : Except String (Json × List Json) :=
  match body.dictGet "response" (Json.str "") with
  | .error m => .error m
  | .ok res =>
    match body.dictGet "tool_calls" (Json.arr []) with
    | .error m => .error m
    | .ok tcs =>
      if tcs.truthy then
        match extendVal logs tcs with
        | .error m => .error m
        | .ok logs2 => .ok (res, logs2)
      else .ok (res, logs)

/-- Embedding of `RemoteAgent.handle_message` (lines 68-101).  Returns the
Python return value together with the final `self.tool_call_logs`.  The
`except` clauses turn every exception into a sentinel string; on `HTTPError`
with status 401 the distinct authentication sentinel is returned. -/
def handle_message (logs : List Json) (outcome : SendOutcome) : Json × List Json :=
  match outcome with
  | .transportError m => (Json.str (errSentinel m), logs)
  | .httpError status m =>
      if status == 401 then (Json.str authSentinel, logs)
      else (Json.str (errSentinel m), logs)
  | .success (.error m) => (Json.str (errSentinel m), logs)
  | .success (.ok body) =>
      match procBody logs body with
      | .ok r => r
      | .error m => (Json.str (errSentinel m), logs)

mutual
/-- Modelled from the Python standard library: `json.dumps` with its default
separators (`", "` between items, `": "` after keys).  String escaping of
special characters is elided; no claim exercises strings needing escapes. -/
def Json.dumps : Json → String
  | .null => "null"
  | .bool true => "true"
  | .bool false => "false"
  | .num n => toString n
  | .str s => "\"" ++ s ++ "\""
  | .arr xs => "[" ++ dumpsArr xs ++ "]"
  | .obj fs => "\x7b" ++ dumpsObj fs ++ "\x7d"

def dumpsArr : List Json → String
  | [] => ""
  | [x] => Json.dumps x
  | x :: y :: xs => Json.dumps x ++ ", " ++ dumpsArr (y :: xs)

def dumpsObj : List (String × Json) → String
  | [] => ""
  | [(k, v)] => "\"" ++ k ++ "\": " ++ Json.dumps v
  | (k, v) :: f :: fs => "\"" ++ k ++ "\": " ++ Json.dumps v ++ ", " ++ dumpsObj (f :: fs)
end

/-- Python `s.startswith(pre)`. -/
def pyStartsWith (s pre : String) : Bool :=
  pre.data.isPrefixOf s.data

/-- Python `s[n:]` (slicing from character index `n`). -/
def pyDrop (s : String) (n : Nat) : String :=
  String.mk (s.data.drop n)

/-- Python `str.isspace` on one character, for the characters `str.strip`
removes. -/
def pyIsSpace (c : Char) : Bool :=
  (c == ' ') || (c == '\t') || (c == '\n') || (c == '\r') || (c == '\x0b') || (c == '\x0c')

/-- Python `s.strip()`: whitespace removed from both ends. -/
def pyStrip (s : String) : String :=
  String.mk (((s.data.dropWhile pyIsSpace).reverse.dropWhile pyIsSpace).reverse)

/-- Python `needle in hay` for two strings (substring test). -/
def strContainsSub (hay needle : String) : Bool :=
  hay.data.tails.any (fun t => needle.data.isPrefixOf t)

/-- Python `"tool_calls" in data_chunk` on a decoded JSON value: key test for
a dict, substring test for a string, element test for a list; `TypeError` for
the remaining shapes (not iterable). -/
def pyHasToolCallsKey : Json → Except String Bool
  | .obj fs => .ok ((Json.obj fs).lookup "tool_calls" |>.isSome)
  | .str s => .ok (strContainsSub s "tool_calls")
  | .arr xs => .ok (xs.any (fun j => match j with | .str s => s == "tool_calls" | _ => false))
  | _ => .error "TypeError: argument is not iterable"

/-- Python `data_chunk["tool_calls"]` after the membership test succeeded:
dict indexing returns the value; string and list indexing with a string key
raise `TypeError`. -/
def pyIndexToolCalls : Json → Except String Json
  | .obj fs => .ok (((Json.obj fs).lookup "tool_calls").getD Json.null)
  | .str _ => .error "TypeError: string indices must be integers"
  | .arr _ => .error "TypeError: list indices must be integers"
  | _ => .error "TypeError: object is not subscriptable"

/-- What one iteration of the `for line in response.iter_lines(...)` body of
`handle_message_stream` does, before the state update: nothing (guards
failed), extend the log with the entries of a tool-call fragment, or add a
text delta to the accumulator (JSON `content` field, or the raw content on a
JSON decode failure). -/
inductive LineAction where
  | skip : LineAction
  | toolCalls (entries : List Json) : LineAction
  | delta (d : String) : LineAction

/-- Classification of one received line in `handle_message_stream`
(lines 128-142), parameterised by the behaviour of `json.loads` on the
stripped content (`parse c = none` models `json.JSONDecodeError`).  A
Python exception other than `JSONDecodeError` escapes the inner `try` and is
an `Except.error`.  The result is independent of the mutable loop state. -/
def classifyLine (parse : String → Option Json) (line : String) :
    Except String LineAction :=
  if (line != "") && pyStartsWith line "data:" then
    let content := pyStrip (pyDrop line 5)
    if (content != "") && (content != "done") then
      match parse content with
      | none => .ok (.delta content)
      | some chunk =>
        match pyHasToolCallsKey chunk with
        | .error m => .error m
        | .ok true =>
          match pyIndexToolCalls chunk with
          | .error m => .error m
          | .ok v =>
            match toExtendList v with
            | .error m => .error m
            | .ok entries => .ok (.toolCalls entries)
        | .ok false =>
          match chunk.dictGet "content" (Json.str "") with
          | .error m => .error m
          | .ok (Json.str s) => .ok (.delta s)
          | .ok _ => .error "TypeError: can only concatenate str to str"
    else .ok .skip
  else .ok .skip

/-- Mutable state of the streaming loop: `self.tool_call_logs` and
`current_text`. -/
structure StreamSt where
  logs : List Json
  cur : String

/-- State update and chunks yielded for one classified line, mirroring lines
136-145: a processed line always executes `yield current_text + " "` followed
by `current_text = ""`; a skipped line yields nothing. -/
def applyAction (st : StreamSt) : LineAction → StreamSt × List String
  | .skip => (st, [])
  | .toolCalls entries => (⟨st.logs ++ entries, ""⟩, [st.cur ++ " "])
  | .delta d => (⟨st.logs, ""⟩, [st.cur ++ d ++ " "])

/-- One event observed while iterating the response lines: a received line,
or a transport exception raised during iteration. -/
inductive StreamEvent where
  | line (s : String) : StreamEvent
  | fail (msg : String) : StreamEvent

/-- Input to a streaming session: either opening the stream raised (the POST
or `raise_for_status` failed), or it succeeded and iteration observes the
given events. -/
inductive StreamInput where
  | openFail (msg : String) : StreamInput
  | opened (events : List StreamEvent) : StreamInput

/-- The line loop of `handle_message_stream` (lines 127-148) from a given
state: processes events until the stream ends (then the final
`if current_text.strip(): yield current_text` runs) or an exception occurs
(the outer `except` yields one error sentinel and the generator ends).
Returns the yielded chunks and the final `self.tool_call_logs`. -/
def runLines (parse : String → Option Json) (st : StreamSt) :
    List StreamEvent → List String × List Json
  | [] => ((if (pyStrip st.cur != "") then [st.cur] else []), st.logs)
  | .fail m :: _ => ([errSentinel m], st.logs)
  | .line s :: rest =>
    match classifyLine parse s with
    | .error m => ([errSentinel m], st.logs)
    | .ok a =>
      let p := applyAction st a
      let r := runLines parse p.1 rest
      (p.2 ++ r.1, r.2)

/-- Embedding of `RemoteAgent.handle_message_stream` (lines 103-153), fully
consumed.  If the stream opens, `self.tool_call_logs` is reset to `[]`
(line 125) before any line is processed; if opening raises, the outer
`except` yields one error sentinel and the prior logs are left untouched.
Returns the yielded chunks and the final `self.tool_call_logs`. -/
def handle_message_stream (parse : String → Option Json) (logs0 : List Json) :
    StreamInput → List String × List Json
  | .openFail m => ([errSentinel m], logs0)
  | .opened events => runLines parse ⟨[], ""⟩ events

/-- A registered tool, as consumed from the external tool registry:
`get_tool(name)` yields an object with a `function` attribute invoked with
the unpacked named arguments.  The invocation may raise, modelled by
`Except`. -/
structure Tool where
  name : String
  description : String
  function : List (String × Json) → Except String Json

/-- Registry lookup `self.tool_registry.get_tool(name)`, keyed by the Python
value `name` (which is `None` when the descriptor has no name): a tool
matches only when `name` is the string equal to its registered name. -/
def getTool (ts : List Tool) (nameV : Json) : Option Tool :=
  ts.find? (fun t => match nameV with | .str s => s == t.name | _ => false)

/-- Line 177: `self.tool_registry.get_tool(name) if self.tool_registry else
None`. -/
def registryLookup (registry : Option (List Tool)) (nameV : Json) : Option Tool :=
  match registry with
  | none => none
  | some ts => getTool ts nameV

/-- The body of `handle_tool_call` (lines 167-192) up to but excluding the
final `self.tool_call_logs.append(call_info)`: computes the returned result
and the single `call_info` record.  Exceptions escaping the body (a raising
tool, `**args` on a non-dict, a non-string `arguments` field, a non-dict
descriptor or `function` field) are `Except.error`; the tool-call log is
neither read nor written here. -/
def toolCallCore (parse : String → Option Json) (registry : Option (List Tool))
    (agent_name : String) (tool_call : Json) : Except String (Json × Json) :=
  match tool_call.dictGet "function" (Json.obj []) with
  | .error m => .error m
  | .ok function_data =>
    match function_data.dictGet "name" Json.null with
    | .error m => .error m
    | .ok nameV =>
      match function_data.dictGet "arguments" (Json.str "\x7b\x7d") with
      | .error m => .error m
      | .ok (Json.str argsStr) =>
        let args := match parse argsStr with
          | some j => j
          | none => Json.obj []
        let tool := registryLookup registry nameV
        let mkInfo := fun (resp : Json) => Json.obj
          [("Tool_call_source", Json.str agent_name),
           ("Tool_call_Destination", nameV),
           ("Tool_call_Arguments", Json.str (Json.dumps args)),
           ("Tool_call_Response", resp)]
        match tool with
        | some t =>
          (match args with
           | .obj fs =>
             match t.function fs with
             | .error m => .error m
             | .ok result => .ok (result, mkInfo result)
           | _ => .error "TypeError: arguments must be a mapping")
        | none =>
          let result := Json.str ("[Tool '" ++ pyStr nameV ++ "' not found]")
          .ok (result, mkInfo result)
      | .ok _ => .error "TypeError: the JSON object must be str"

/-- Embedding of `RemoteAgent.handle_tool_call` (lines 155-196).  On normal
return the computed `call_info` record is appended to `self.tool_call_logs`
(line 194); an exception propagates to the caller with the log untouched,
since the append is the only statement that mutates the log and it follows
every raising statement. -/
def handle_tool_call (parse : String → Option Json) (registry : Option (List Tool))
    (agent_name : String) (logs : List Json) (tool_call : Json) :
    Except String Json × List Json :=
  match toolCallCore parse registry agent_name tool_call with
  | .ok (result, info) => (.ok result, logs ++ [info])
  | .error m => (.error m, logs)

/-- A concrete behaviour of `json.loads` on the handful of documents used in
the concrete instances below; every other input is a decode failure. -/
def demoParse : String → Option Json := fun s =>
  if s == "\x7b\x7d" then some (Json.obj [])
  else if s == "\x7b\"tool_calls\":[\x7b\"id\":\"1\"\x7d]\x7d" then
    some (Json.obj [("tool_calls", Json.arr [Json.obj [("id", Json.str "1")]])])
  else if s == "\x7b\"content\":\"hi\"\x7d" then
    some (Json.obj [("content", Json.str "hi")])
  else if s == "\x7b\"content\":\"there\"\x7d" then
    some (Json.obj [("content", Json.str "there")])
  else none

/-- The payload line carrying the spec's example tool-call fragment. -/
def tcLine : String := "data:\x7b\"tool_calls\":[\x7b\"id\":\"1\"\x7d]\x7d"

/-- A payload line carrying the content fragment `hi`. -/
def hiLine : String := "data:\x7b\"content\":\"hi\"\x7d"

/-- A payload line carrying the content fragment `there`. -/
def thereLine : String := "data:\x7b\"content\":\"there\"\x7d"

/-- The tool-call entry of the spec's example fragment. -/
def tcEntry : Json := Json.obj [("id", Json.str "1")]

/-- A tool-call entry as the chat endpoint returns it (see §6: an object
holding a `function` object), used against `handle_message`. -/
def c6Entry : Json := Json.obj [("function", Json.obj [("name", Json.str "f")])]

/-- A successful `POST /chat` body whose `tool_calls` list holds `c6Entry`. -/
def c6Body : Json :=
  Json.obj [("response", Json.str "ok"), ("tool_calls", Json.arr [c6Entry])]

/-- A registered tool whose invocation raises. -/
def boomTool : Tool :=
  ⟨"boom", "always raises", fun _ => .error "RuntimeError: boom"⟩

/-- A descriptor naming `boomTool`, with explicitly empty arguments. -/
def boomDesc : Json :=
  Json.obj [("function", Json.obj
    [("name", Json.str "boom"), ("arguments", Json.str "\x7b\x7d")])]

/-- The spec's example descriptor naming the nonexistent tool `Xyz`. -/
def descXyz : Json :=
  Json.obj [("function", Json.obj [("name", Json.str "Xyz")])]

/-- The record `handle_tool_call` appends for `descXyz` when no tool named
`Xyz` exists. -/
def xyzRecord (agent_name : String) : Json := Json.obj
  [("Tool_call_source", Json.str agent_name),
   ("Tool_call_Destination", Json.str "Xyz"),
   ("Tool_call_Arguments", Json.str "\x7b\x7d"),
   ("Tool_call_Response", Json.str "[Tool 'Xyz' not found]")]

/-- Whether a Python value is a `str`. -/
def Json.isStr : Json → Bool
  | .str _ => true
  | _ => false

/-- The exception, if any, that processing one stream event raises: a
transport failure during iteration, or a line whose classification raises.
Classification reads no mutable state, so this is a function of the event
alone. -/
def eventError (parse : String → Option Json) : StreamEvent → Option String
  | .fail m => some m
  | .line s =>
      match classifyLine parse s with
      | .error m => some m
      | .ok _ => none

/-- A list of stream events none of which raises. -/
def CleanEvents (parse : String → Option Json) (evs : List StreamEvent) : Prop :=
  ∀ e ∈ evs, eventError parse e = none

/-- A payload line carrying exactly one content fragment with delta `d`: it
passes the data-prefix and non-empty/non-done guards, its stripped payload
decodes to a JSON object with no tool-call list, and the object's `content`
field is the string `d`. -/
def IsContentLine (parse : String → Option Json) (line d : String) : Prop :=
  (line != "") = true ∧ pyStartsWith line "data:" = true ∧
  (pyStrip (pyDrop line 5) != "") = true ∧
  (pyStrip (pyDrop line 5) != "done") = true ∧
  ∃ fs, parse (pyStrip (pyDrop line 5)) = some (Json.obj fs) ∧
    (Json.obj fs).lookup "tool_calls" = none ∧
    (Json.obj fs).lookup "content" = some (Json.str d)

/-- Removing the join space `handle_message_stream` appends to a yielded
chunk: the chunk without its final character. -/
def stripJoinSpace (c : String) : String :=
  String.mk c.data.dropLast

lemma pyRstripSlash_getLast (s : String) :
    (pyRstripSlash s).data.getLast? ≠ some '/' := by
  intro h
  have h2 : ((s.data.reverse.dropWhile (fun c => c == '/')).reverse).getLast? =
      some '/' := h
  rw [List.getLast?_reverse] at h2
  have h3 := List.head?_dropWhile_not (fun c => c == '/') s.data.reverse
  rw [h2] at h3
  simp at h3

/-- C5: constructing a `RemoteAgent` fails when the base address is absent or
empty; otherwise every trailing slash is stripped, so the stored base address
never ends in a path separator, and for base URL `http://x/` the chat
endpoint is `http://x/chat` with no double slash. -/
theorem c5_base_url_normalized (s base : String) :
    remoteAgentBaseUrl none = .error "RemoteAgent base URL is required." ∧
    remoteAgentBaseUrl (some "") = .error "RemoteAgent base URL is required." ∧
    remoteAgentBaseUrl (some "http://x/") = .ok "http://x" ∧
    chatEndpoint "http://x" = "http://x/chat" ∧
    (remoteAgentBaseUrl (some s) = .ok base → base.data.getLast? ≠ some '/') := by
  refine ⟨rfl, rfl, by rfl, rfl, ?_⟩
  intro h
  unfold remoteAgentBaseUrl at h
  by_cases hs : s == ""
  · simp [hs] at h
  · simp [hs] at h
    rw [← h]
    exact pyRstripSlash_getLast s

/-- C5 witness: the theorem applied at the base URL of the spec's example. -/
theorem c5_base_url_normalized_witness :
    remoteAgentBaseUrl (some "http://x/") = .ok "http://x" ∧
    ("http://x" : String).data.getLast? ≠ some '/' :=
  ⟨(c5_base_url_normalized "http://x/" "http://x").2.2.1,
   (c5_base_url_normalized "http://x/" "http://x").2.2.2.2 (by rfl)⟩

/-- C1 counterexample: a successful POST whose decoded body maps `response`
to the number 5 makes `handle_message` return that number unchanged — not a
string — with no exception raised, so the claim that the synchronous send
always returns a string fails on a well-formed (but non-conforming) JSON
body. -/
theorem c1_counterexample :
    (handle_message [] (.success (.ok (Json.obj [("response", Json.num 5)])))).1 =
      Json.num 5 ∧
    ((handle_message []
        (.success (.ok (Json.obj [("response", Json.num 5)])))).1).isStr = false :=
  ⟨rfl, rfl⟩

/-- C1 (amended): `handle_message` never raises — every transport exception
and body-decode failure returns the generic sentinel embedding the failure's
description, HTTP 401 returns the distinct authentication sentinel, every
other HTTP error returns the generic sentinel — and on a successful response
whose body's `response` field is absent or a string (as the wire protocol
specifies) the returned value is a string. -/
theorem c1_amended (logs : List Json) (m : String) (status : Nat) (body : Json) :
    handle_message logs (.transportError m) = (Json.str (errSentinel m), logs) ∧
    handle_message logs (.success (.error m)) = (Json.str (errSentinel m), logs) ∧
    handle_message logs (.httpError 401 m) = (Json.str authSentinel, logs) ∧
    (status ≠ 401 →
      handle_message logs (.httpError status m) = (Json.str (errSentinel m), logs)) ∧
    ((body.lookup "response" = none ∨ ∃ s, body.lookup "response" = some (Json.str s)) →
      ((handle_message logs (.success (.ok body))).1).isStr = true) := by
  refine ⟨rfl, rfl, rfl, ?_, ?_⟩
  · intro h
    have hb : (status == 401) = false := by simpa using h
    simp [handle_message, hb]
  · intro hresp
    cases body with
    | null => rfl
    | bool b => rfl
    | num n => rfl
    | str s => rfl
    | arr xs => rfl
    | obj fs =>
      have hres : (((Json.obj fs).lookup "response").getD (Json.str "")).isStr = true := by
        rcases hresp with hn | ⟨s, hs⟩
        · rw [hn]; rfl
        · rw [hs]; rfl
      simp only [handle_message, procBody, Json.dictGet]
      by_cases ht : (((Json.obj fs).lookup "tool_calls").getD (Json.arr [])).truthy
      · simp only [ht, if_true]
        cases hext : extendVal logs (((Json.obj fs).lookup "tool_calls").getD (Json.arr [])) with
        | error m2 => simp [hext, Json.isStr]
        | ok logs2 => simp [hext, hres]
      · simp only [ht, if_false, Bool.false_eq_true]
        exact hres

/-- C1 witness: the amended theorem applied at HTTP status 500 and at a
protocol-conforming success body. -/
theorem c1_amended_witness :
    handle_message [] (.httpError 500 "500 Server Error") =
      (Json.str (errSentinel "500 Server Error"), []) ∧
    ((handle_message []
        (.success (.ok (Json.obj [("response", Json.str "ok")])))).1).isStr = true :=
  ⟨(c1_amended [] "500 Server Error" 500
      (Json.obj [("response", Json.str "ok")])).2.2.2.1 (by decide),
   (c1_amended [] "500 Server Error" 500
      (Json.obj [("response", Json.str "ok")])).2.2.2.2 (Or.inr ⟨"ok", rfl⟩)⟩

/-- C6 counterexample: for a successful send whose `tool_calls` list holds
the entry `c6Entry`, the element appended to the log is the raw entry itself:
it carries no `Tool_call_source` or `Tool_call_Destination` field at all, so
no record with source equal to the agent's identity and destination equal to
the entry's declared name is appended (contrast `handle_tool_call`, whose
records do carry those fields). -/
theorem c6_counterexample :
    (handle_message [] (.success (.ok c6Body))).2 = [c6Entry] ∧
    c6Entry.lookup "Tool_call_source" = none ∧
    c6Entry.lookup "Tool_call_Destination" = none :=
  ⟨rfl, rfl, rfl⟩

/-- C6 (amended): on a successful synchronous send whose decoded body carries
a `tool_calls` list, every entry of that list is appended to the log
verbatim — with no restructuring into a source/destination record — and the
body's `response` field (default empty string) is returned. -/
theorem c6_amended (logs : List Json) (fs : List (String × Json)) (tcs : List Json)
    (h : (Json.obj fs).lookup "tool_calls" = some (Json.arr tcs)) :
    handle_message logs (.success (.ok (Json.obj fs))) =
      (((Json.obj fs).lookup "response").getD (Json.str ""), logs ++ tcs) := by
  simp only [handle_message, procBody, Json.dictGet, h]
  cases tcs with
  | nil => simp [Json.truthy, extendVal, toExtendList, Except.map]
  | cons a l => simp [Json.truthy, extendVal, toExtendList, Except.map]

/-- C6 witness: the amended theorem applied at the concrete body `c6Body`. -/
theorem c6_amended_witness :
    handle_message [] (.success (.ok c6Body)) = (Json.str "ok", [c6Entry]) := by
  have h := c6_amended []
    [("response", Json.str "ok"), ("tool_calls", Json.arr [c6Entry])] [c6Entry] rfl
  rw [show ((Json.obj [("response", Json.str "ok"),
      ("tool_calls", Json.arr [c6Entry])]).lookup "response").getD (Json.str "") =
      Json.str "ok" from rfl] at h
  exact h

/-- C10: a synchronous send that takes any error path — transport exception,
HTTP error (401 included), body-decode failure, or an exception raised while
processing the decoded body — leaves the tool-call log exactly as it was
before the call: every exception path occurs before the single append
point of `handle_message`. -/
theorem c10_error_send_leaves_log (logs : List Json) (m : String) (status : Nat) (body : Json) :
    (handle_message logs (.transportError m)).2 = logs ∧
    (handle_message logs (.httpError status m)).2 = logs ∧
    (handle_message logs (.success (.error m))).2 = logs ∧
    (∀ m2, procBody logs body = .error m2 →
      (handle_message logs (.success (.ok body))).2 = logs) := by
  refine ⟨rfl, ?_, rfl, ?_⟩
  · unfold handle_message
    by_cases h : (status == 401) = true <;> simp [h]
  · intro m2 h
    simp [handle_message, h]

/-- C10 witness: the theorem applied at a non-dict body (processing raises
`AttributeError`) with a nonempty prior log. -/
theorem c10_error_send_leaves_log_witness :
    (handle_message [Json.str "keep"] (.success (.ok (Json.num 3)))).2 =
      [Json.str "keep"] :=
  (c10_error_send_leaves_log [Json.str "keep"] "boom" 500 (Json.num 3)).2.2.2
    "AttributeError: object has no attribute get" rfl

lemma string_mk_data (s : String) : String.mk s.data = s := rfl

lemma string_empty_append (s : String) : "" ++ s = s := rfl

lemma runLines_nil_of_cur_empty (parse : String → Option Json) (st : StreamSt)
    (hc : st.cur = "") : runLines parse st [] = ([], st.logs) := by
  obtain ⟨logs, cur⟩ := st
  simp only at hc
  subst hc
  simp [runLines, show (pyStrip "" != "") = false from rfl]

lemma applyAction_cur (st : StreamSt) (hc : st.cur = "") (a : LineAction) :
    ((applyAction st a).1).cur = "" := by
  cases a <;> simp [applyAction, hc]

lemma classifyLine_of_content (parse : String → Option Json) (line d : String)
    (h : IsContentLine parse line d) :
    classifyLine parse line = .ok (.delta d) := by
  obtain ⟨h1, h2, h3, h4, fs, hp, hno, hc⟩ := h
  simp only [classifyLine, h1, h2, h3, h4, Bool.and_self, if_true, hp,
    pyHasToolCallsKey, hno, Option.isSome_none, Json.dictGet, hc, Option.getD_some]

lemma runLines_content (parse : String → Option Json) :
    ∀ (lines ds : List String) (st : StreamSt), st.cur = "" →
    List.Forall₂ (IsContentLine parse) lines ds →
    runLines parse st (lines.map .line) = (ds.map (fun d => d ++ " "), st.logs) := by
  intro lines
  induction lines with
  | nil =>
    intro ds st hc hf
    cases hf
    simpa using runLines_nil_of_cur_empty parse st hc
  | cons l lines ih =>
    intro ds st hc hf
    cases hf with
    | cons hld hrest =>
      rename_i d ds2
      simp only [List.map_cons, runLines, classifyLine_of_content parse l d hld]
      rw [show applyAction st (.delta d) = (⟨st.logs, ""⟩, [st.cur ++ d ++ " "]) from rfl]
      rw [ih ds2 ⟨st.logs, ""⟩ rfl hrest]
      simp [hc, string_empty_append]

/-- C3: for a stream consisting only of content fragments, each content delta
is yielded immediately as one chunk with exactly one trailing join space
appended (the accumulator having been reset between fragments), no log entry
is produced, and stripping the inserted join space from each chunk
reproduces the original deltas in their original order. -/
theorem c3_content_stream_roundtrip (parse : String → Option Json) (logs0 : List Json)
    (lines ds : List String) (h : List.Forall₂ (IsContentLine parse) lines ds) :
    handle_message_stream parse logs0 (.opened (lines.map .line)) =
      (ds.map (fun d => d ++ " "), []) ∧
    (ds.map (fun d => d ++ " ")).map stripJoinSpace = ds := by
  constructor
  · exact runLines_content parse lines ds ⟨[], ""⟩ rfl h
  · rw [List.map_map]
    have hstrip : ∀ d : String, stripJoinSpace (d ++ " ") = d := by
      intro d
      unfold stripJoinSpace
      rw [String.data_append]
      rw [show (" " : String).data = [' '] from rfl]
      rw [List.dropLast_concat]
    have hcomp : stripJoinSpace ∘ (fun d => d ++ " ") = id := funext hstrip
    rw [hcomp, List.map_id]

/-- C3 witness: the theorem applied at a two-fragment content stream. -/
theorem c3_content_stream_roundtrip_witness :
    handle_message_stream demoParse [] (.opened [.line hiLine, .line thereLine]) =
      (["hi ", "there "], []) := by
  have h := (c3_content_stream_roundtrip demoParse [] [hiLine, thereLine]
    ["hi", "there"] (by
      refine List.Forall₂.cons ?_ (List.Forall₂.cons ?_ List.Forall₂.nil)
      · exact ⟨rfl, rfl, rfl, rfl, [("content", Json.str "hi")], rfl, rfl, rfl⟩
      · exact ⟨rfl, rfl, rfl, rfl, [("content", Json.str "there")], rfl, rfl, rfl⟩)).1
  exact h

/-- C2 counterexample: for the spec's example stream — one tool-call fragment
followed by one content fragment — the log ends exactly with the entries of
the fragment, but a text chunk IS emitted for the tool-call fragment: the
unconditional `yield current_text + " "` produces a single-space chunk, so
the output has two chunks, not the one chunk the claim implies. -/
theorem c2_counterexample :
    (handle_message_stream demoParse [] (.opened [.line tcLine, .line hiLine])).1 =
      [" ", "hi "] ∧
    (handle_message_stream demoParse [] (.opened [.line tcLine, .line hiLine])).1 ≠
      ["hi "] ∧
    (handle_message_stream demoParse [] (.opened [.line tcLine, .line hiLine])).2 =
      [tcEntry] := by
  refine ⟨by decide, ?_, by rfl⟩
  intro h
  rw [show (handle_message_stream demoParse []
      (.opened [.line tcLine, .line hiLine])).1 = [" ", "hi "] by decide] at h
  exact absurd h (by decide)

/-- C2 (amended): every payload line that decodes to a JSON object carrying a
tool-call list appends every entry of that list to the log buffer and adds no
text to the accumulator; however the fragment still emits one chunk — the
unconditional join-space yield — consisting of the (empty) accumulator plus
one space. -/
theorem c2_amended (parse : String → Option Json) (line : String) (st : StreamSt)
    (fs : List (String × Json)) (entries : List Json)
    (h1 : (line != "") = true) (h2 : pyStartsWith line "data:" = true)
    (h3 : (pyStrip (pyDrop line 5) != "") = true)
    (h4 : (pyStrip (pyDrop line 5) != "done") = true)
    (hp : parse (pyStrip (pyDrop line 5)) = some (Json.obj fs))
    (htc : (Json.obj fs).lookup "tool_calls" = some (Json.arr entries)) :
    classifyLine parse line = .ok (.toolCalls entries) ∧
    applyAction st (.toolCalls entries) = (⟨st.logs ++ entries, ""⟩, [st.cur ++ " "]) := by
  refine ⟨?_, rfl⟩
  simp only [classifyLine, h1, h2, h3, h4, Bool.and_self, if_true, hp,
    pyHasToolCallsKey, htc, Option.isSome_some, pyIndexToolCalls,
    Option.getD_some, toExtendList]

/-- C2 witness: the amended theorem applied at the spec's example tool-call
fragment from the empty stream state. -/
theorem c2_amended_witness :
    classifyLine demoParse tcLine = .ok (.toolCalls [tcEntry]) ∧
    applyAction ⟨[], ""⟩ (.toolCalls [tcEntry]) = (⟨[tcEntry], ""⟩, [" "]) :=
  c2_amended demoParse tcLine ⟨[], ""⟩ [("tool_calls", Json.arr [tcEntry])] [tcEntry]
    rfl rfl rfl rfl rfl rfl

lemma runLines_first_error (parse : String → Option Json) (m : String)
    (e : StreamEvent) (rest : List StreamEvent) (he : eventError parse e = some m) :
    ∀ (evs : List StreamEvent) (st : StreamSt), st.cur = "" → CleanEvents parse evs →
    runLines parse st (evs ++ e :: rest) =
      ((runLines parse st evs).1 ++ [errSentinel m], (runLines parse st evs).2) := by
  intro evs
  induction evs with
  | nil =>
    intro st hc _
    rw [runLines_nil_of_cur_empty parse st hc]
    simp only [List.nil_append]
    cases e with
    | fail m2 =>
      simp only [eventError, Option.some.injEq] at he
      subst he
      rfl
    | line s =>
      simp only [eventError] at he
      cases hcl : classifyLine parse s with
      | ok a => rw [hcl] at he; simp at he
      | error m2 =>
        rw [hcl] at he
        simp only [Option.some.injEq] at he
        subst he
        simp [runLines, hcl]
  | cons ev evs ih =>
    intro st hc hclean
    have hev : eventError parse ev = none := hclean ev (by simp)
    have hevs : CleanEvents parse evs := fun x hx => hclean x (by simp [hx])
    cases ev with
    | fail m2 => simp [eventError] at hev
    | line s =>
      simp only [eventError] at hev
      cases hcl : classifyLine parse s with
      | error m2 => rw [hcl] at hev; simp at hev
      | ok a =>
        simp only [List.cons_append, runLines, hcl, List.append_eq]
        rw [ih (applyAction st a).1 (applyAction_cur st hc a) hevs]
        simp

/-- C4: the streaming send never raises past its boundary — the run is a
total function — and when an exception occurs at any point (opening the
stream, a transport failure mid-iteration, or a line whose processing
raises), the produced sequence is exactly the chunks yielded before the
first exception followed by one final error-tagged fragment, after which it
terminates: later events are never processed. -/
theorem c4_stream_error_terminal (parse : String → Option Json) (logs0 : List Json)
    (m : String) (evs rest : List StreamEvent) (e : StreamEvent) :
    handle_message_stream parse logs0 (.openFail m) = ([errSentinel m], logs0) ∧
    (CleanEvents parse evs → eventError parse e = some m →
      handle_message_stream parse logs0 (.opened (evs ++ e :: rest)) =
        ((handle_message_stream parse logs0 (.opened evs)).1 ++ [errSentinel m],
         (handle_message_stream parse logs0 (.opened evs)).2)) := by
  refine ⟨rfl, ?_⟩
  intro hclean he
  exact runLines_first_error parse m e rest he evs ⟨[], ""⟩ rfl hclean

/-- C4 witness: the theorem applied at a stream holding one clean raw-text
line and then a transport failure. -/
theorem c4_stream_error_terminal_witness :
    handle_message_stream demoParse []
        (.opened ([.line "data:hello"] ++ .fail "boom" :: [])) =
      ((handle_message_stream demoParse [] (.opened [.line "data:hello"])).1 ++
          [errSentinel "boom"],
        (handle_message_stream demoParse [] (.opened [.line "data:hello"])).2) :=
  (c4_stream_error_terminal demoParse [] "boom" [.line "data:hello"] []
      (.fail "boom")).2
    (by intro e he; rw [List.mem_singleton] at he; subst he; rfl) rfl

/-- C7 counterexample: when opening the stream raises (for instance a
connection failure), the log reset on line 125 is never reached: the session
ends — one error chunk is yielded — with the buffer still holding its prior
contents, so the buffer is not reset at the start of every streaming
session. -/
theorem c7_counterexample :
    handle_message_stream demoParse [Json.str "old"] (.openFail "down") =
      (["[RemoteAgent error: down]"], [Json.str "old"]) ∧
    (handle_message_stream demoParse [Json.str "old"] (.openFail "down")).2 ≠ [] := by
  refine ⟨rfl, ?_⟩
  intro h
  have h2 : ([Json.str "old"] : List Json) = [] := h
  exact List.noConfusion h2

/-- C7 (amended): once the stream is successfully opened, the log buffer is
reset to empty before any line is processed, so the result of an opened
session — chunks and final log alike — is independent of the prior buffer
contents and the final log holds only this turn's discoveries; when opening
raises, the buffer is left untouched. -/
theorem c7_amended (parse : String → Option Json) (logs0 logs02 : List Json)
    (evs : List StreamEvent) (m : String) :
    handle_message_stream parse logs0 (.opened evs) =
      handle_message_stream parse logs02 (.opened evs) ∧
    (handle_message_stream parse logs0 (.opened evs)).2 =
      (handle_message_stream parse [] (.opened evs)).2 ∧
    handle_message_stream parse logs0 (.openFail m) = ([errSentinel m], logs0) :=
  ⟨rfl, rfl, rfl⟩

/-- C8 counterexample: when the resolved tool's invocation raises, the
exception propagates out of `handle_tool_call` before the append on line 194
runs, so that invocation appends zero records, not exactly one. -/
theorem c8_counterexample :
    handle_tool_call demoParse (some [boomTool]) "A" [] boomDesc =
      (.error "RuntimeError: boom", []) ∧
    (handle_tool_call demoParse (some [boomTool]) "A" [] boomDesc).2.length = 0 :=
  ⟨rfl, rfl⟩

/-- C8 (amended): whenever `handle_tool_call` returns normally — tool found
or not — exactly one record is appended to the log; whenever it raises, the
log is left exactly as it was. -/
theorem c8_amended (parse : String → Option Json) (registry : Option (List Tool))
    (agent_name : String) (logs : List Json) (tool_call : Json) :
    (∀ r logs2,
      handle_tool_call parse registry agent_name logs tool_call = (.ok r, logs2) →
      ∃ rec, logs2 = logs ++ [rec]) ∧
    (∀ m logs2,
      handle_tool_call parse registry agent_name logs tool_call = (.error m, logs2) →
      logs2 = logs) := by
  constructor
  · intro r logs2 h
    unfold handle_tool_call at h
    cases hc : toolCallCore parse registry agent_name tool_call with
    | ok p =>
      obtain ⟨p1, p2⟩ := p
      rw [hc] at h
      rw [Prod.mk.injEq] at h
      exact ⟨p2, h.2.symm⟩
    | error m2 =>
      rw [hc] at h
      rw [Prod.mk.injEq] at h
      exact Except.noConfusion h.1
  · intro m logs2 h
    unfold handle_tool_call at h
    cases hc : toolCallCore parse registry agent_name tool_call with
    | ok p =>
      obtain ⟨p1, p2⟩ := p
      rw [hc] at h
      rw [Prod.mk.injEq] at h
      exact Except.noConfusion h.1
    | error m2 =>
      rw [hc] at h
      rw [Prod.mk.injEq] at h
      exact h.2.symm

/-- C8 witness: the amended theorem applied at a missing-tool call, whose
concrete run appends one record. -/
theorem c8_amended_witness :
    ∃ rec, (handle_tool_call demoParse none "Agent" [] descXyz).2 = [] ++ [rec] :=
  (c8_amended demoParse none "Agent" [] descXyz).1
    (Json.str "[Tool 'Xyz' not found]") [xyzRecord "Agent"] rfl

lemma toolCallCore_descXyz (parse : String → Option Json)
    (registry : Option (List Tool)) (agent_name : String)
    (hparse : parse "\x7b\x7d" = some (Json.obj []))
    (hfind : registryLookup registry (Json.str "Xyz") = none) :
    toolCallCore parse registry agent_name descXyz =
      .ok (Json.str "[Tool 'Xyz' not found]", xyzRecord agent_name) := by
  simp only [toolCallCore, descXyz, Json.dictGet, Json.lookup, List.find?, hparse,
    beq_self_eq_true, Option.map, Option.getD_some,
    show ("name" == "arguments") = false from rfl, Option.getD, hfind]
  rfl

/-- C9: dispatching a descriptor that names a tool absent from the registry
does not fail: it returns the placeholder naming the missing tool and appends
one record with destination `Xyz`, arguments the serialized empty dict and
the placeholder as response; calling it twice with the same descriptor
appends exactly two such records, identical to each other. -/
theorem c9_missing_tool (parse : String → Option Json)
    (registry : Option (List Tool)) (agent_name : String) (logs : List Json)
    (hparse : parse "\x7b\x7d" = some (Json.obj []))
    (hreg : ∀ ts, registry = some ts → ∀ t ∈ ts, t.name ≠ "Xyz") :
    handle_tool_call parse registry agent_name logs descXyz =
      (.ok (Json.str "[Tool 'Xyz' not found]"), logs ++ [xyzRecord agent_name]) ∧
    handle_tool_call parse registry agent_name
        (logs ++ [xyzRecord agent_name]) descXyz =
      (.ok (Json.str "[Tool 'Xyz' not found]"),
        logs ++ [xyzRecord agent_name, xyzRecord agent_name]) := by
  have hfind : registryLookup registry (Json.str "Xyz") = none := by
    cases registry with
    | none => rfl
    | some ts =>
      simp only [registryLookup, getTool]
      rw [List.find?_eq_none]
      intro t ht
      have := hreg ts rfl t ht
      simp
      intro h
      exact absurd h.symm this
  have hcore := toolCallCore_descXyz parse registry agent_name hparse hfind
  constructor
  · unfold handle_tool_call
    rw [hcore]
  · unfold handle_tool_call
    rw [hcore]
    simp

/-- C9 witness: the theorem applied twice from the empty log with an absent
registry. -/
theorem c9_missing_tool_witness :
    handle_tool_call demoParse none "Agent" [] descXyz =
      (.ok (Json.str "[Tool 'Xyz' not found]"), [xyzRecord "Agent"]) ∧
    handle_tool_call demoParse none "Agent" [xyzRecord "Agent"] descXyz =
      (.ok (Json.str "[Tool 'Xyz' not found]"),
        [xyzRecord "Agent", xyzRecord "Agent"]) := by
  have h := c9_missing_tool demoParse none "Agent" [] rfl
    (fun ts h => Option.noConfusion h)
  simpa using h
